import Mathlib

/-!
Shallow embedding of the Welch t-test repository.

The repository has two implementations of the same procedure:
  * `src/custom_welch_t_test/` (exception-raising entry point built from
    `validate_inputs`, `extract_groups` and the calculation in `core.py`);
  * `src/welch_t_test.py` (a permissive variant returning an error mapping).

Numbers are modelled exactly: rationals stand for the floating-point values,
with an explicit extended type `XFloat` carrying the IEEE special values
NaN / +inf / -inf that the Python code can produce (numpy scalar arithmetic
returns NaN or infinities on 0/0 and x/0 instead of raising).  Square roots
(`np.std`, the denominator of the t statistic) are kept symbolic: `SVal.sqrtOf
q` denotes the real number sqrt q, and a t statistic `TVal.finite num den2`
denotes num / sqrt den2 with den2 > 0, so signs and NaN-ness are captured
exactly without leaving computable arithmetic.
-/

/-- A cell of the tabular dataset: a string, a (floating-point) number modelled
as a rational, or a missing value (pandas NaN / None). -/
inductive Cell
  | str (s : String)
  | num (q : ℚ)
  | null
deriving DecidableEq

/-- Python `==` on cells as pandas applies it row-wise: a missing value (NaN)
compares unequal to everything, including itself; values of different kinds
compare unequal. -/
def cellEq : Cell → Cell → Bool
  | Cell.null, _ => false
  | _, Cell.null => false
  | Cell.str a, Cell.str b => a == b
  | Cell.num a, Cell.num b => a == b
  | _, _ => false

/-- Rendering of a cell inside a Python f-string message. -/
def cellStr : Cell → String
  | Cell.str s => s
  | Cell.num q => toString q
  | Cell.null => "nan"

/-- The tabular dataset: named columns and rows of cells (row i's cell for
column j is entry j of row i; a short row reads as missing). -/
structure DataFrame where
  columns : List String
  rows : List (List Cell)
deriving DecidableEq

/-- Cell of row `r` in the column named `c` (missing column reads as null;
unreachable after validation). -/
def cellAt (df : DataFrame) (c : String) (r : List Cell) : Cell :=
  match df.columns.findIdx? (fun n => n == c) with
  | some i => r.getD i Cell.null
  | none => Cell.null

/-- The full column named `c`, in row order. -/
def getColumn (df : DataFrame) (c : String) : List Cell :=
  df.rows.map (fun r => cellAt df c r)

/-- pandas `Series.nunique()`: the number of distinct non-missing values
observed in the column. -/
def nunique (df : DataFrame) (c : String) : Nat :=
  (((getColumn df c).filter (fun x => x != Cell.null)).dedup).length

/-- pandas `DataFrame.empty`: true when either axis has length zero. -/
def dfEmpty (df : DataFrame) : Bool :=
  df.rows.isEmpty || df.columns.isEmpty

/-- Projection `dataframe[dataframe[ind] == v][dep]`: project column `dep` over the rows
whose `ind` cell equals `v`. -/
def groupData (df : DataFrame) (ind dep : String) (v : Cell) : List Cell :=
  (df.rows.filter (fun r => cellEq (cellAt df ind r) v)).map (fun r => cellAt df dep r)

/-- pandas `Series.dropna()`: drop the missing values. -/
def dropna (xs : List Cell) : List Cell :=
  xs.filter (fun c => c != Cell.null)

/-- Exact value of a floating-point scalar in this program: a rational, or one
of the IEEE special values produced by numpy scalar arithmetic. -/
inductive XFloat
  | nan
  | pinf
  | ninf
  | fin (q : ℚ)
deriving DecidableEq

/-- IEEE addition on exact float values. -/
def XFloat.add : XFloat → XFloat → XFloat
  | XFloat.nan, _ => XFloat.nan
  | _, XFloat.nan => XFloat.nan
  | XFloat.pinf, XFloat.ninf => XFloat.nan
  | XFloat.ninf, XFloat.pinf => XFloat.nan
  | XFloat.pinf, _ => XFloat.pinf
  | _, XFloat.pinf => XFloat.pinf
  | XFloat.ninf, _ => XFloat.ninf
  | _, XFloat.ninf => XFloat.ninf
  | XFloat.fin a, XFloat.fin b => XFloat.fin (a + b)

/-- IEEE multiplication on exact float values. -/
def XFloat.mul : XFloat → XFloat → XFloat
  | XFloat.nan, _ => XFloat.nan
  | _, XFloat.nan => XFloat.nan
  | XFloat.fin a, XFloat.fin b => XFloat.fin (a * b)
  | XFloat.pinf, XFloat.pinf => XFloat.pinf
  | XFloat.ninf, XFloat.ninf => XFloat.pinf
  | XFloat.pinf, XFloat.ninf => XFloat.ninf
  | XFloat.ninf, XFloat.pinf => XFloat.ninf
  | XFloat.pinf, XFloat.fin b =>
      if b = 0 then XFloat.nan else if 0 < b then XFloat.pinf else XFloat.ninf
  | XFloat.fin a, XFloat.pinf =>
      if a = 0 then XFloat.nan else if 0 < a then XFloat.pinf else XFloat.ninf
  | XFloat.ninf, XFloat.fin b =>
      if b = 0 then XFloat.nan else if 0 < b then XFloat.ninf else XFloat.pinf
  | XFloat.fin a, XFloat.ninf =>
      if a = 0 then XFloat.nan else if 0 < a then XFloat.ninf else XFloat.pinf

/-- IEEE division on exact float values (the sign conventions follow the +0
that all zero denominators in this program carry). -/
def XFloat.div : XFloat → XFloat → XFloat
  | XFloat.nan, _ => XFloat.nan
  | _, XFloat.nan => XFloat.nan
  | XFloat.fin a, XFloat.fin b =>
      if b = 0 then
        (if a = 0 then XFloat.nan else if 0 < a then XFloat.pinf else XFloat.ninf)
      else XFloat.fin (a / b)
  | XFloat.fin _, XFloat.pinf => XFloat.fin 0
  | XFloat.fin _, XFloat.ninf => XFloat.fin 0
  | XFloat.pinf, XFloat.fin b => if b < 0 then XFloat.ninf else XFloat.pinf
  | XFloat.ninf, XFloat.fin b => if b < 0 then XFloat.pinf else XFloat.ninf
  | _, _ => XFloat.nan

/-- Squaring on exact float values (`x**2`). -/
def XFloat.sq (x : XFloat) : XFloat := XFloat.mul x x

/-- Exact value of a square root of a float: `sqrtOf q` denotes the real
number sqrt q (created only with 0 ≤ q). -/
inductive SVal
  | nan
  | pinf
  | sqrtOf (radicand : ℚ)
deriving DecidableEq

/-- IEEE `sqrt` on exact float values (sqrt of a negative is NaN). -/
def sqrtX : XFloat → SVal
  | XFloat.nan => SVal.nan
  | XFloat.pinf => SVal.pinf
  | XFloat.ninf => SVal.nan
  | XFloat.fin q => if q < 0 then SVal.nan else SVal.sqrtOf q

/-- Squaring a square-root value: exact, since (sqrt q)^2 = q for 0 ≤ q. -/
def SVal.sq : SVal → XFloat
  | SVal.nan => XFloat.nan
  | SVal.pinf => XFloat.pinf
  | SVal.sqrtOf q => XFloat.fin q

/-- Exact value of the t statistic: `finite num den2` denotes num / sqrt den2
with den2 > 0; the special values arise from IEEE 0/0 and x/0. -/
inductive TVal
  | nan
  | pinf
  | ninf
  | finite (num : ℚ) (den2 : ℚ)
deriving DecidableEq

/-- Sign of a rational: 1, -1 or 0. -/
def qSign (q : ℚ) : ℚ :=
  if 0 < q then 1 else if q < 0 then -1 else 0

/-- Sign of a t-statistic value: none for NaN; for `finite num den2` the sign
of `num`, since the denominator sqrt den2 is positive. -/
def TVal.sgn : TVal → Option ℚ
  | TVal.nan => none
  | TVal.pinf => some 1
  | TVal.ninf => some (-1)
  | TVal.finite num _ => some (qSign num)

/-- The t statistic `num / sqrt se2` as scipy's `ttest_ind` evaluates it with
IEEE arithmetic: NaN if `se2` is NaN (a NaN variance) or negative under the
root, 0/0 NaN or a signed infinity when `se2 = 0`, and the exact symbolic
quotient when `se2 > 0`.  (The `pinf` branch, x / +inf = +0, is unreachable:
`se2` is a finite sum here.) -/
def tFromParts (num : ℚ) (se2 : XFloat) : TVal :=
  match se2 with
  | XFloat.nan => TVal.nan
  | XFloat.ninf => TVal.nan
  | XFloat.pinf => TVal.finite 0 1
  | XFloat.fin s =>
      if s < 0 then TVal.nan
      else if s = 0 then
        (if num = 0 then TVal.nan else if 0 < num then TVal.pinf else TVal.ninf)
      else TVal.finite num s

/-- numpy `np.mean` of a nonempty numeric vector (the empty case is unreachable:
both variants reject empty groups before computing). -/
def npMean (xs : List ℚ) : ℚ :=
  xs.sum / (xs.length : ℚ)

/-- numpy `np.var(xs, ddof=1)`, the sample variance: sum of squared deviations over
n - 1.  For n ≤ 1 numpy's 0/0 (or empty-slice) arithmetic yields NaN. -/
def npVarDdof1 (xs : List ℚ) : XFloat :=
  if xs.length ≤ 1 then XFloat.nan
  else XFloat.fin (((xs.map (fun x => (x - npMean xs) ^ 2)).sum) / ((xs.length : ℚ) - 1))

/-- The numeric contents of a vector of cells; `none` when some cell is not a
number (numpy/scipy then raise a TypeError, modelled downstream). -/
def toNumbers : List Cell → Option (List ℚ)
  | [] => some []
  | Cell.num q :: rest => (toNumbers rest).map (fun l => q :: l)
  | _ => none

/-- The exception taxonomy of `src/custom_welch_t_test/exceptions.py`, plus a
constructor `pyOther` for exceptions originating outside the library (e.g. a
TypeError raised by numpy/scipy on non-numeric data).  `insufficientData` is a
Python subclass of `InvalidDataError`, and all library kinds derive from
`WelchTTestError`. -/
inductive PyExc
  | welchTTest (msg : String)
  | invalidData (msg : String)
  | insufficientData (msg : String)
  | invalidColumn (msg : String)
  | statistical (msg : String)
  | pyOther (msg : String)
deriving DecidableEq

/-- The message carried by an exception (`str(e)`). -/
def PyExc.message : PyExc → String
  | PyExc.welchTTest m => m
  | PyExc.invalidData m => m
  | PyExc.insufficientData m => m
  | PyExc.invalidColumn m => m
  | PyExc.statistical m => m
  | PyExc.pyOther m => m

/-- Python `isinstance(e, (InvalidColumnError, InvalidDataError))`: true for the
invalid-column kind and the invalid-data kind including its subclass. -/
def PyExc.isInvColOrData : PyExc → Bool
  | PyExc.invalidColumn _ => true
  | PyExc.invalidData _ => true
  | PyExc.insufficientData _ => true
  | _ => false

/-- Whether an exception belongs to the library's own taxonomy (everything
except a foreign Python exception). -/
def PyExc.inTaxonomy : PyExc → Bool
  | PyExc.pyOther _ => false
  | _ => true

/-- Function `validate_inputs` from `src/custom_welch_t_test/utils.py`, with the checks
in source order.  The `isinstance` checks on the dataframe and on
`control_test_values` always pass in this typed embedding. -/
def validate_inputs (df : DataFrame) (independent_var_col dependent_var_col : String)
    (control_test_values : List Cell) : Except PyExc Unit :=
  if dfEmpty df then Except.error (PyExc.invalidData "DataFrame is empty")
  else if independent_var_col ∉ df.columns then
    Except.error (PyExc.invalidColumn
      ("Column \x27" ++ independent_var_col ++ "\x27 not found in dataframe"))
  else if dependent_var_col ∉ df.columns then
    Except.error (PyExc.invalidColumn
      ("Column \x27" ++ dependent_var_col ++ "\x27 not found in dataframe"))
  else if 2 < nunique df independent_var_col then
    Except.error (PyExc.invalidData
      ("Independent variable column has " ++ toString (nunique df independent_var_col)
        ++ " distinct values. Only 2 are allowed for t-test."))
  else if control_test_values.length ≠ 2 then
    Except.error (PyExc.invalidData
      "control_test_values must contain exactly 2 values [control_value, test_value]")
  else Except.ok ()

/-- Function `extract_groups` from `src/custom_welch_t_test/utils.py`: filter the two
groups, drop missing values, enforce the emptiness and minimum-size checks in
source order.  (Unpacking a list of the wrong length would be a Python
ValueError; that branch is unreachable after validation.) -/
def extract_groups (df : DataFrame) (independent_var_col dependent_var_col : String)
    (control_test_values : List Cell) :
    Except PyExc (List Cell × List Cell × Cell × Cell) :=
  match control_test_values with
  | [control_value, test_value] =>
    let control_data := groupData df independent_var_col dependent_var_col control_value
    let test_data := groupData df independent_var_col dependent_var_col test_value
    if control_data.length = 0 then
      Except.error (PyExc.invalidData
        ("No data found for control value \x27" ++ cellStr control_value ++ "\x27"))
    else if test_data.length = 0 then
      Except.error (PyExc.invalidData
        ("No data found for test value \x27" ++ cellStr test_value ++ "\x27"))
    else
      let control_vec := dropna control_data
      let test_vec := dropna test_data
      if control_vec.length = 0 then
        Except.error (PyExc.invalidData "No valid (non-NaN) data in control group")
      else if test_vec.length = 0 then
        Except.error (PyExc.invalidData "No valid (non-NaN) data in test group")
      else if control_vec.length < 2 then
        Except.error (PyExc.invalidData "Control group must have at least 2 observations")
      else if test_vec.length < 2 then
        Except.error (PyExc.invalidData "Test group must have at least 2 observations")
      else Except.ok (control_vec, test_vec, control_value, test_value)
  | _ => Except.error (PyExc.pyOther "cannot unpack control_test_values")

/-- The result mapping assembled by both implementations. -/
structure WResult where
  t_statistic : TVal
  p_value : XFloat
  degrees_of_freedom : XFloat
  mean_control : ℚ
  mean_test : ℚ
  std_control : SVal
  std_test : SVal
  n_control : Nat
  n_test : Nat
  mean_difference : ℚ
  control_value : Cell
  test_value : Cell
deriving DecidableEq

/-- The calculation step shared verbatim by `core.py` and `welch_t_test.py`
(both compute the same expressions in the same order), parametrised by the
trusted p-value routine `pfun` of `scipy.stats.ttest_ind`:

  * `ttest_ind(control_vec, test_vec, equal_var=False)` computes
    `t = (mean(control) - mean(test)) / sqrt(v1/n1 + v2/n2)` with ddof-1
    variances — note the control-minus-test numerator;
  * `std_* = np.std(vec, ddof=1)` is the square root of the sample variance,
    and `s1_sq = std_control**2` recovers the variance exactly;
  * `df = (s1_sq/n1 + s2_sq/n2)**2 / ((s1_sq/n1)**2/(n1-1) + (s2_sq/n2)**2/(n2-1))`.
-/
def mkResult (pfun : List ℚ → List ℚ → XFloat) (control_vec test_vec : List ℚ)
    (control_value test_value : Cell) : WResult :=
  let n_control := control_vec.length
  let n_test := test_vec.length
  let mean_control := npMean control_vec
  let mean_test := npMean test_vec
  let t_statistic := tFromParts (mean_control - mean_test)
      (XFloat.add (XFloat.div (npVarDdof1 control_vec) (XFloat.fin (n_control : ℚ)))
                  (XFloat.div (npVarDdof1 test_vec) (XFloat.fin (n_test : ℚ))))
  let std_control := sqrtX (npVarDdof1 control_vec)
  let std_test := sqrtX (npVarDdof1 test_vec)
  let s1_sq := std_control.sq
  let s2_sq := std_test.sq
  let a := XFloat.div s1_sq (XFloat.fin (n_control : ℚ))
  let b := XFloat.div s2_sq (XFloat.fin (n_test : ℚ))
  let df := XFloat.div (XFloat.sq (XFloat.add a b))
      (XFloat.add (XFloat.div (XFloat.sq a) (XFloat.fin ((n_control : ℚ) - 1)))
                  (XFloat.div (XFloat.sq b) (XFloat.fin ((n_test : ℚ) - 1))))
  { t_statistic := t_statistic
    p_value := pfun control_vec test_vec
    degrees_of_freedom := df
    mean_control := mean_control
    mean_test := mean_test
    std_control := std_control
    std_test := std_test
    n_control := n_control
    n_test := n_test
    mean_difference := mean_test - mean_control
    control_value := control_value
    test_value := test_value }

/-- The calculation step of `core.py`: the extracted vectors must be numeric
(otherwise numpy/scipy raise, modelled as a foreign exception); otherwise the
computation is total and succeeds (scipy returns NaN/inf rather than raising
on degenerate data). -/
def calculate (pfun : List ℚ → List ℚ → XFloat) (control_vec test_vec : List Cell)
    (control_value test_value : Cell) : Except PyExc WResult :=
  match toNumbers control_vec, toNumbers test_vec with
  | some cnums, some tnums =>
      Except.ok (mkResult pfun cnums tnums control_value test_value)
  | _, _ =>
      Except.error (PyExc.pyOther "unsupported operand type in t-test input")

/-- The `try/except` wrapper at the end of `core.welch_t_test`:
`InvalidColumnError` and `InvalidDataError` (and subclasses) re-raise
unchanged; any other exception is wrapped into the base `WelchTTestError`
with the original message appended. -/
def handleErrors (r : Except PyExc WResult) : Except PyExc WResult :=
  match r with
  | Except.ok v => Except.ok v
  | Except.error e =>
      if e.isInvColOrData then Except.error e
      else Except.error (PyExc.welchTTest ("T-test calculation failed: " ++ e.message))

/-- Function `welch_t_test` from `src/custom_welch_t_test/core.py`: validate, extract,
calculate, with the whole body inside the error-wrapping `try`. -/
def welch_t_test (pfun : List ℚ → List ℚ → XFloat) (df : DataFrame)
    (independent_var_col dependent_var_col : String)
    (control_test_values : List Cell) : Except PyExc WResult :=
  handleErrors
    (match validate_inputs df independent_var_col dependent_var_col control_test_values with
     | Except.error e => Except.error e
     | Except.ok _ =>
       match extract_groups df independent_var_col dependent_var_col control_test_values with
       | Except.error e => Except.error e
       | Except.ok (control_vec, test_vec, control_value, test_value) =>
           calculate pfun control_vec test_vec control_value test_value)

/-- Return value of the permissive variant: the full result mapping, or the
single-key error mapping. -/
inductive PermOut
  | ok (r : WResult)
  | err (msg : String)
deriving DecidableEq

/-- Function `welch_t_test` from `src/welch_t_test.py` (the permissive variant): the
same computation, but every failure returns an error mapping; there is no
empty-table check and no minimum-sample-size check, and the trailing
catch-all turns any foreign exception into an error mapping. -/
def welch_t_test_permissive (pfun : List ℚ → List ℚ → XFloat) (df : DataFrame)
    (independent_var_col dependent_var_col : String)
    (control_test_values : List Cell) : PermOut :=
  if independent_var_col ∉ df.columns then
    PermOut.err ("Column \x27" ++ independent_var_col ++ "\x27 not found in dataframe")
  else if dependent_var_col ∉ df.columns then
    PermOut.err ("Column \x27" ++ dependent_var_col ++ "\x27 not found in dataframe")
  else if 2 < nunique df independent_var_col then
    PermOut.err ("Independent variable column has " ++ toString (nunique df independent_var_col)
      ++ " distinct values. Only 2 are allowed for t-test.")
  else if control_test_values.length ≠ 2 then
    PermOut.err "control_test_values must contain exactly 2 values [control_value, test_value]"
  else
    match control_test_values with
    | [control_value, test_value] =>
      let control_data := groupData df independent_var_col dependent_var_col control_value
      let test_data := groupData df independent_var_col dependent_var_col test_value
      if control_data.length = 0 then
        PermOut.err ("No data found for control value \x27" ++ cellStr control_value ++ "\x27")
      else if test_data.length = 0 then
        PermOut.err ("No data found for test value \x27" ++ cellStr test_value ++ "\x27")
      else
        let control_vec := dropna control_data
        let test_vec := dropna test_data
        if control_vec.length = 0 then
          PermOut.err "No valid (non-NaN) data in control group"
        else if test_vec.length = 0 then
          PermOut.err "No valid (non-NaN) data in test group"
        else
          match toNumbers control_vec, toNumbers test_vec with
          | some cnums, some tnums =>
              PermOut.ok (mkResult pfun cnums tnums control_value test_value)
          | _, _ =>
              PermOut.err ("An error occurred: unsupported operand type in t-test input")
    | _ => PermOut.err ("An error occurred: cannot unpack control_test_values")

/-- The Welch–Satterthwaite degrees-of-freedom formula as the specification
writes it, over exact rationals, with the sample variances `v1`, `v2` and the
group sizes `n1`, `n2`. -/
def wsDF (v1 v2 : ℚ) (n1 n2 : Nat) : ℚ :=
  (v1 / (n1 : ℚ) + v2 / (n2 : ℚ)) ^ 2 /
    ((v1 / (n1 : ℚ)) ^ 2 / ((n1 : ℚ) - 1) + (v2 / (n2 : ℚ)) ^ 2 / ((n2 : ℚ) - 1))

/-- The bound claimed by the specification for the degrees-of-freedom field:
it is a finite value q with min(n_control, n_test) - 1 ≤ q ≤
n_control + n_test - 2. -/
def dfInBounds (r : WResult) : Prop :=
  ∃ q : ℚ, r.degrees_of_freedom = XFloat.fin q ∧
    (min r.n_control r.n_test : ℚ) - 1 ≤ q ∧ q ≤ (r.n_control : ℚ) + (r.n_test : ℚ) - 2

/-- The placeholder instantiation of the trusted p-value primitive used in
concrete evaluations (its value is irrelevant to every property proved here). -/
def pfun0 : List ℚ → List ℚ → XFloat := fun _ _ => XFloat.nan

/-- The rational value of the sample variance for a vector of length at least
two (the well-defined branch of `npVarDdof1`). -/
def varQ (xs : List ℚ) : ℚ :=
  ((xs.map (fun x => (x - npMean xs) ^ 2)).sum) / ((xs.length : ℚ) - 1)

/-- Scenario 3 of the specification: control observations 12.5, 13.2, 11.8,
14.1 and test observations 15.2, 14.8, 16.1, 15.7. -/
def dfScenario3 : DataFrame :=
  { columns := ["group", "value"],
    rows := [[Cell.str "control", Cell.num (25/2)], [Cell.str "control", Cell.num (66/5)],
             [Cell.str "control", Cell.num (59/5)], [Cell.str "control", Cell.num (141/10)],
             [Cell.str "test", Cell.num (76/5)], [Cell.str "test", Cell.num (74/5)],
             [Cell.str "test", Cell.num (161/10)], [Cell.str "test", Cell.num (157/10)]] }

/-- Scenario 6 of the specification: both groups are the constant 5. -/
def dfConstEqual : DataFrame :=
  { columns := ["group", "value"],
    rows := [[Cell.str "c", Cell.num 5], [Cell.str "c", Cell.num 5],
             [Cell.str "c", Cell.num 5], [Cell.str "t", Cell.num 5],
             [Cell.str "t", Cell.num 5], [Cell.str "t", Cell.num 5]] }

/-- Both groups constant (zero variance) with different means: 5,5 vs 7,7. -/
def dfConstDiff : DataFrame :=
  { columns := ["group", "value"],
    rows := [[Cell.str "c", Cell.num 5], [Cell.str "c", Cell.num 5],
             [Cell.str "t", Cell.num 7], [Cell.str "t", Cell.num 7]] }

/-- Both groups constant (zero variance) with different means: 3,3 vs 9,9. -/
def dfConstDiff2 : DataFrame :=
  { columns := ["group", "value"],
    rows := [[Cell.str "c", Cell.num 3], [Cell.str "c", Cell.num 3],
             [Cell.str "t", Cell.num 9], [Cell.str "t", Cell.num 9]] }

/-- A table whose grouping column has three distinct observed values. -/
def df3Groups : DataFrame :=
  { columns := ["group", "value"],
    rows := [[Cell.str "a", Cell.num 1], [Cell.str "b", Cell.num 2],
             [Cell.str "c", Cell.num 3], [Cell.str "a", Cell.num 4]] }

/-- A small well-formed table: control group 0,1 and test group 0,2. -/
def dfWitA : DataFrame :=
  { columns := ["group", "value"],
    rows := [[Cell.str "c", Cell.num 0], [Cell.str "c", Cell.num 1],
             [Cell.str "t", Cell.num 0], [Cell.str "t", Cell.num 2]] }

/-- A table whose control group keeps a single observation after the NaN drop. -/
def dfWitC3 : DataFrame :=
  { columns := ["group", "value"],
    rows := [[Cell.str "c", Cell.num 5], [Cell.str "c", Cell.null],
             [Cell.str "t", Cell.num 1], [Cell.str "t", Cell.num 2]] }

lemma npVarDdof1_eq_fin {xs : List ℚ} (h : 2 ≤ xs.length) :
    npVarDdof1 xs = XFloat.fin (varQ xs) := by
  unfold npVarDdof1 varQ
  rw [if_neg (by omega)]

lemma varQ_nonneg {xs : List ℚ} (h : 2 ≤ xs.length) : 0 ≤ varQ xs := by
  unfold varQ
  apply div_nonneg
  · apply List.sum_nonneg
    intro a ha
    obtain ⟨x, _, hx⟩ := List.mem_map.mp ha
    rw [← hx]
    positivity
  · have : (2 : ℚ) ≤ (xs.length : ℚ) := by exact_mod_cast h
    linarith

lemma sqrtX_var {xs : List ℚ} (h : 2 ≤ xs.length) :
    sqrtX (npVarDdof1 xs) = SVal.sqrtOf (varQ xs) := by
  rw [npVarDdof1_eq_fin h]
  show (if varQ xs < 0 then SVal.nan else SVal.sqrtOf (varQ xs)) = SVal.sqrtOf (varQ xs)
  rw [if_neg (not_lt.mpr (varQ_nonneg h))]

lemma toNumbers_length : ∀ {xs : List Cell} {ns : List ℚ},
    toNumbers xs = some ns → ns.length = xs.length := by
  intro xs
  induction xs with
  | nil =>
    intro ns h
    injection h with h'
    subst h'
    rfl
  | cons c rest ih =>
    intro ns h
    cases c with
    | num q =>
      simp only [toNumbers] at h
      cases hr : toNumbers rest with
      | none => rw [hr] at h; exact Option.noConfusion h
      | some l =>
        rw [hr] at h
        injection h with h'
        subst h'
        simp [ih hr]
    | str s => exact Option.noConfusion h
    | null => exact Option.noConfusion h

lemma handleErrors_ok {x : Except PyExc WResult} {r : WResult}
    (h : handleErrors x = Except.ok r) : x = Except.ok r := by
  cases x with
  | ok v => simpa [handleErrors] using h
  | error e =>
    simp only [handleErrors] at h
    split at h <;> exact Except.noConfusion h

lemma extract_groups_ok {df : DataFrame} {ind dep : String} {ctv : List Cell}
    {cvec tvec : List Cell} {cv tv : Cell}
    (h : extract_groups df ind dep ctv = Except.ok (cvec, tvec, cv, tv)) :
    ctv = [cv, tv] ∧ cvec = dropna (groupData df ind dep cv) ∧
      tvec = dropna (groupData df ind dep tv) ∧ 2 ≤ cvec.length ∧ 2 ≤ tvec.length := by
  match ctv with
  | [] => exact Except.noConfusion h
  | [x] => exact Except.noConfusion h
  | x :: y :: z :: rest => exact Except.noConfusion h
  | [x, y] =>
    simp only [extract_groups] at h
    split at h
    · exact Except.noConfusion h
    · split at h
      · exact Except.noConfusion h
      · split at h
        · exact Except.noConfusion h
        · split at h
          · exact Except.noConfusion h
          · split at h
            · exact Except.noConfusion h
            · split at h
              · exact Except.noConfusion h
              · rename_i h0c h0t hdc hdt hlc hlt
                simp only [Except.ok.injEq, Prod.mk.injEq] at h
                obtain ⟨hc, ht, hx, hy⟩ := h
                subst hx
                subst hy
                refine ⟨rfl, hc.symm, ht.symm, ?_, ?_⟩
                · rw [← hc]; omega
                · rw [← ht]; omega

lemma welch_ok_inv {pfun : List ℚ → List ℚ → XFloat} {df : DataFrame}
    {ind dep : String} {ctv : List Cell} {r : WResult}
    (h : welch_t_test pfun df ind dep ctv = Except.ok r) :
    ∃ cnums tnums cv tv,
      toNumbers (dropna (groupData df ind dep cv)) = some cnums ∧
      toNumbers (dropna (groupData df ind dep tv)) = some tnums ∧
      2 ≤ cnums.length ∧ 2 ≤ tnums.length ∧
      r = mkResult pfun cnums tnums cv tv := by
  unfold welch_t_test at h
  have h' := handleErrors_ok h
  cases hv : validate_inputs df ind dep ctv with
  | error e => rw [hv] at h'; exact Except.noConfusion h'
  | ok u =>
    rw [hv] at h'
    cases he : extract_groups df ind dep ctv with
    | error e => rw [he] at h'; exact Except.noConfusion h'
    | ok tup =>
      obtain ⟨cvec, tvec, cv, tv⟩ := tup
      rw [he] at h'
      obtain ⟨hctv, hcveq, htveq, hc2, ht2⟩ := extract_groups_ok he
      have h'' : calculate pfun cvec tvec cv tv = Except.ok r := h'
      unfold calculate at h''
      cases hcn : toNumbers cvec with
      | none =>
        cases htn : toNumbers tvec with
        | none => rw [hcn, htn] at h''; exact Except.noConfusion h''
        | some tnums => rw [hcn, htn] at h''; exact Except.noConfusion h''
      | some cnums =>
        cases htn : toNumbers tvec with
        | none => rw [hcn, htn] at h''; exact Except.noConfusion h''
        | some tnums =>
          rw [hcn, htn] at h''
          simp only [Except.ok.injEq] at h''
          refine ⟨cnums, tnums, cv, tv, ?_, ?_, ?_, ?_, h''.symm⟩
          · rw [← hcveq]; exact hcn
          · rw [← htveq]; exact htn
          · rw [toNumbers_length hcn]; exact hc2
          · rw [toNumbers_length htn]; exact ht2

lemma XFloat.add_fin_fin (a b : ℚ) :
    XFloat.add (XFloat.fin a) (XFloat.fin b) = XFloat.fin (a + b) := rfl

lemma XFloat.div_fin_fin {b : ℚ} (a : ℚ) (hb : b ≠ 0) :
    XFloat.div (XFloat.fin a) (XFloat.fin b) = XFloat.fin (a / b) := by
  simp [XFloat.div, hb]

lemma XFloat.sq_fin (a : ℚ) : XFloat.sq (XFloat.fin a) = XFloat.fin (a * a) := rfl

lemma mkResult_t_statistic (pfun : List ℚ → List ℚ → XFloat) (cnums tnums : List ℚ)
    (cv tv : Cell) :
    (mkResult pfun cnums tnums cv tv).t_statistic =
      tFromParts (npMean cnums - npMean tnums)
        (XFloat.add (XFloat.div (npVarDdof1 cnums) (XFloat.fin (cnums.length : ℚ)))
                    (XFloat.div (npVarDdof1 tnums) (XFloat.fin (tnums.length : ℚ)))) := rfl

lemma mkResult_mean_difference (pfun : List ℚ → List ℚ → XFloat) (cnums tnums : List ℚ)
    (cv tv : Cell) :
    (mkResult pfun cnums tnums cv tv).mean_difference = npMean tnums - npMean cnums := rfl

lemma mkResult_std_control (pfun : List ℚ → List ℚ → XFloat) (cnums tnums : List ℚ)
    (cv tv : Cell) :
    (mkResult pfun cnums tnums cv tv).std_control = sqrtX (npVarDdof1 cnums) := rfl

lemma mkResult_std_test (pfun : List ℚ → List ℚ → XFloat) (cnums tnums : List ℚ)
    (cv tv : Cell) :
    (mkResult pfun cnums tnums cv tv).std_test = sqrtX (npVarDdof1 tnums) := rfl

lemma mkResult_n_control (pfun : List ℚ → List ℚ → XFloat) (cnums tnums : List ℚ)
    (cv tv : Cell) :
    (mkResult pfun cnums tnums cv tv).n_control = cnums.length := rfl

lemma mkResult_n_test (pfun : List ℚ → List ℚ → XFloat) (cnums tnums : List ℚ)
    (cv tv : Cell) :
    (mkResult pfun cnums tnums cv tv).n_test = tnums.length := rfl

lemma mkResult_degrees_of_freedom (pfun : List ℚ → List ℚ → XFloat) (cnums tnums : List ℚ)
    (cv tv : Cell) :
    (mkResult pfun cnums tnums cv tv).degrees_of_freedom =
      XFloat.div
        (XFloat.sq (XFloat.add
          (XFloat.div (SVal.sq (sqrtX (npVarDdof1 cnums))) (XFloat.fin (cnums.length : ℚ)))
          (XFloat.div (SVal.sq (sqrtX (npVarDdof1 tnums))) (XFloat.fin (tnums.length : ℚ)))))
        (XFloat.add
          (XFloat.div
            (XFloat.sq (XFloat.div (SVal.sq (sqrtX (npVarDdof1 cnums)))
              (XFloat.fin (cnums.length : ℚ))))
            (XFloat.fin ((cnums.length : ℚ) - 1)))
          (XFloat.div
            (XFloat.sq (XFloat.div (SVal.sq (sqrtX (npVarDdof1 tnums)))
              (XFloat.fin (tnums.length : ℚ))))
            (XFloat.fin ((tnums.length : ℚ) - 1)))) := rfl

lemma qSign_neg (q : ℚ) : qSign (-q) = -qSign q := by
  unfold qSign
  split_ifs <;> linarith

lemma tFromParts_sgn (num : ℚ) {s : ℚ} (hs : 0 ≤ s) :
    TVal.sgn (tFromParts num (XFloat.fin s)) = some (qSign num) ∨
      (tFromParts num (XFloat.fin s) = TVal.nan ∧ num = 0) := by
  simp only [tFromParts]
  rw [if_neg (not_lt.mpr hs)]
  by_cases h0 : s = 0
  · rw [if_pos h0]
    by_cases hn : num = 0
    · rw [if_pos hn]
      exact Or.inr ⟨rfl, hn⟩
    · rw [if_neg hn]
      by_cases hp : 0 < num
      · rw [if_pos hp]
        left
        simp [TVal.sgn, qSign, hp]
      · rw [if_neg hp]
        left
        have hlt : num < 0 := lt_of_le_of_ne (not_lt.mp hp) hn
        simp [TVal.sgn, qSign, hp, hlt]
  · rw [if_neg h0]
    left
    rfl

lemma natCast_ne_zero_of_two_le {n : Nat} (h : 2 ≤ n) : ((n : ℚ)) ≠ 0 := by
  have : (2 : ℚ) ≤ (n : ℚ) := by exact_mod_cast h
  linarith

lemma natCast_sub_one_ne_zero {n : Nat} (h : 2 ≤ n) : ((n : ℚ)) - 1 ≠ 0 := by
  have : (2 : ℚ) ≤ (n : ℚ) := by exact_mod_cast h
  linarith

lemma mkResult_t_sgn {pfun : List ℚ → List ℚ → XFloat} {cnums tnums : List ℚ}
    {cv tv : Cell} (hc : 2 ≤ cnums.length) (ht : 2 ≤ tnums.length) :
    TVal.sgn (mkResult pfun cnums tnums cv tv).t_statistic =
        some (-(qSign (mkResult pfun cnums tnums cv tv).mean_difference)) ∨
      ((mkResult pfun cnums tnums cv tv).t_statistic = TVal.nan ∧
        (mkResult pfun cnums tnums cv tv).mean_difference = 0) := by
  have hn1 := natCast_ne_zero_of_two_le hc
  have hn2 := natCast_ne_zero_of_two_le ht
  rw [mkResult_t_statistic, mkResult_mean_difference,
    npVarDdof1_eq_fin hc, npVarDdof1_eq_fin ht,
    XFloat.div_fin_fin _ hn1, XFloat.div_fin_fin _ hn2, XFloat.add_fin_fin]
  have hs : 0 ≤ varQ cnums / (cnums.length : ℚ) + varQ tnums / (tnums.length : ℚ) := by
    have h1 : 0 ≤ varQ cnums / (cnums.length : ℚ) :=
      div_nonneg (varQ_nonneg hc) (by positivity)
    have h2 : 0 ≤ varQ tnums / (tnums.length : ℚ) :=
      div_nonneg (varQ_nonneg ht) (by positivity)
    linarith
  rcases tFromParts_sgn (npMean cnums - npMean tnums) hs with h | h
  · left
    rw [h]
    have e : npMean cnums - npMean tnums = -(npMean tnums - npMean cnums) := by ring
    rw [e, qSign_neg]
  · right
    exact ⟨h.1, by linarith [h.2]⟩

lemma mkResult_df_eq {pfun : List ℚ → List ℚ → XFloat} {cnums tnums : List ℚ}
    {cv tv : Cell} (hc : 2 ≤ cnums.length) (ht : 2 ≤ tnums.length)
    (hnz : ¬(varQ cnums = 0 ∧ varQ tnums = 0)) :
    (mkResult pfun cnums tnums cv tv).degrees_of_freedom =
      XFloat.fin (wsDF (varQ cnums) (varQ tnums) cnums.length tnums.length) := by
  have hn1 := natCast_ne_zero_of_two_le hc
  have hn2 := natCast_ne_zero_of_two_le ht
  have hd1 := natCast_sub_one_ne_zero hc
  have hd2 := natCast_sub_one_ne_zero ht
  have hv1 := varQ_nonneg hc
  have hv2 := varQ_nonneg ht
  rw [mkResult_degrees_of_freedom, sqrtX_var hc, sqrtX_var ht]
  simp only [SVal.sq]
  rw [XFloat.div_fin_fin _ hn1, XFloat.div_fin_fin _ hn2, XFloat.add_fin_fin,
    XFloat.sq_fin, XFloat.sq_fin, XFloat.sq_fin,
    XFloat.div_fin_fin _ hd1, XFloat.div_fin_fin _ hd2, XFloat.add_fin_fin]
  have hD : 0 < (varQ cnums / (cnums.length : ℚ)) * (varQ cnums / (cnums.length : ℚ)) /
        ((cnums.length : ℚ) - 1) +
      (varQ tnums / (tnums.length : ℚ)) * (varQ tnums / (tnums.length : ℚ)) /
        ((tnums.length : ℚ) - 1) := by
    have hc2 : (2 : ℚ) ≤ (cnums.length : ℚ) := by exact_mod_cast hc
    have ht2 : (2 : ℚ) ≤ (tnums.length : ℚ) := by exact_mod_cast ht
    have hnc : (0 : ℚ) < (cnums.length : ℚ) := by linarith
    have hnt : (0 : ℚ) < (tnums.length : ℚ) := by linarith
    have hdc : (0 : ℚ) < (cnums.length : ℚ) - 1 := by linarith
    have hdt : (0 : ℚ) < (tnums.length : ℚ) - 1 := by linarith
    rcases not_and_or.mp hnz with h | h
    · have hvpos : 0 < varQ cnums := lt_of_le_of_ne hv1 (Ne.symm h)
      have h1 : 0 < (varQ cnums / (cnums.length : ℚ)) * (varQ cnums / (cnums.length : ℚ)) /
          ((cnums.length : ℚ) - 1) :=
        div_pos (mul_pos (div_pos hvpos hnc) (div_pos hvpos hnc)) hdc
      have h2 : 0 ≤ (varQ tnums / (tnums.length : ℚ)) * (varQ tnums / (tnums.length : ℚ)) /
          ((tnums.length : ℚ) - 1) :=
        div_nonneg (mul_nonneg (div_nonneg hv2 hnt.le) (div_nonneg hv2 hnt.le)) hdt.le
      linarith
    · have hvpos : 0 < varQ tnums := lt_of_le_of_ne hv2 (Ne.symm h)
      have h1 : 0 ≤ (varQ cnums / (cnums.length : ℚ)) * (varQ cnums / (cnums.length : ℚ)) /
          ((cnums.length : ℚ) - 1) :=
        div_nonneg (mul_nonneg (div_nonneg hv1 hnc.le) (div_nonneg hv1 hnc.le)) hdc.le
      have h2 : 0 < (varQ tnums / (tnums.length : ℚ)) * (varQ tnums / (tnums.length : ℚ)) /
          ((tnums.length : ℚ) - 1) :=
        div_pos (mul_pos (div_pos hvpos hnt) (div_pos hvpos hnt)) hdt
      linarith
  rw [XFloat.div_fin_fin _ (ne_of_gt hD)]
  unfold wsDF
  congr 1
  ring

lemma welch_df_bounds (a b c d : ℚ) (ha : 0 ≤ a) (hb : 0 ≤ b)
    (hc : 1 ≤ c) (hd : 1 ≤ d) (hab : 0 < a ∨ 0 < b) :
    min c d ≤ (a + b) ^ 2 / (a ^ 2 / c + b ^ 2 / d) ∧
      (a + b) ^ 2 / (a ^ 2 / c + b ^ 2 / d) ≤ c + d := by
  have hc' : (0 : ℚ) < c := by linarith
  have hd' : (0 : ℚ) < d := by linarith
  have hD : 0 < a ^ 2 / c + b ^ 2 / d := by
    rcases hab with h | h
    · have h1 : 0 < a ^ 2 / c := div_pos (by positivity) hc'
      have h2 : 0 ≤ b ^ 2 / d := div_nonneg (sq_nonneg b) hd'.le
      linarith
    · have h1 : 0 ≤ a ^ 2 / c := div_nonneg (sq_nonneg a) hc'.le
      have h2 : 0 < b ^ 2 / d := div_pos (by positivity) hd'
      linarith
  constructor
  · rw [le_div_iff hD]
    have e1 : c * (a ^ 2 / c) = a ^ 2 := by field_simp
    have e2 : d * (b ^ 2 / d) = b ^ 2 := by field_simp
    rcases le_total c d with hle | hle
    · rw [min_eq_left hle]
      have e3 : c * (b ^ 2 / d) ≤ b ^ 2 := by
        have h1 : c / d ≤ 1 := (div_le_one hd').mpr hle
        calc c * (b ^ 2 / d) = (c / d) * b ^ 2 := by ring
          _ ≤ 1 * b ^ 2 := mul_le_mul_of_nonneg_right h1 (sq_nonneg b)
          _ = b ^ 2 := one_mul _
      nlinarith [mul_nonneg ha hb, e1, e3]
    · rw [min_eq_right hle]
      have e3 : d * (a ^ 2 / c) ≤ a ^ 2 := by
        have h1 : d / c ≤ 1 := (div_le_one hc').mpr hle
        calc d * (a ^ 2 / c) = (d / c) * a ^ 2 := by ring
          _ ≤ 1 * a ^ 2 := mul_le_mul_of_nonneg_right h1 (sq_nonneg a)
          _ = a ^ 2 := one_mul _
      nlinarith [mul_nonneg ha hb, e2, e3]
  · rw [div_le_iff hD]
    have e : (c + d) * (a ^ 2 / c + b ^ 2 / d) =
        a ^ 2 + b ^ 2 + (a ^ 2 * d) / c + (b ^ 2 * c) / d := by
      field_simp
      ring
    have h2 : 2 * a * b ≤ (a ^ 2 * d) / c + (b ^ 2 * c) / d := by
      rw [div_add_div _ _ (ne_of_gt hc') (ne_of_gt hd'), le_div_iff (mul_pos hc' hd')]
      nlinarith [sq_nonneg (a * d - b * c)]
    nlinarith [e, h2]

lemma cast_min_sub_one (n1 n2 : Nat) :
    ((min n1 n2 : Nat) : ℚ) - 1 = min ((n1 : ℚ) - 1) ((n2 : ℚ) - 1) := by
  rcases le_total n1 n2 with h | h
  · rw [min_eq_left h, min_eq_left (by exact_mod_cast (by linarith [(show ((n1:ℚ)) ≤ (n2:ℚ) by exact_mod_cast h)] : ((n1:ℚ)) - 1 ≤ (n2:ℚ) - 1))]
  · rw [min_eq_right h, min_eq_right (by exact_mod_cast (by linarith [(show ((n2:ℚ)) ≤ (n1:ℚ) by exact_mod_cast h)] : ((n2:ℚ)) - 1 ≤ (n1:ℚ) - 1))]

lemma wsDF_bounds {v1 v2 : ℚ} {n1 n2 : Nat} (hv1 : 0 ≤ v1) (hv2 : 0 ≤ v2)
    (hn1 : 2 ≤ n1) (hn2 : 2 ≤ n2) (hnz : ¬(v1 = 0 ∧ v2 = 0)) :
    ((min n1 n2 : Nat) : ℚ) - 1 ≤ wsDF v1 v2 n1 n2 ∧
      wsDF v1 v2 n1 n2 ≤ (n1 : ℚ) + (n2 : ℚ) - 2 := by
  have hc2 : (2 : ℚ) ≤ (n1 : ℚ) := by exact_mod_cast hn1
  have ht2 : (2 : ℚ) ≤ (n2 : ℚ) := by exact_mod_cast hn2
  have hnc : (0 : ℚ) < (n1 : ℚ) := by linarith
  have hnt : (0 : ℚ) < (n2 : ℚ) := by linarith
  have hab : 0 < v1 / (n1 : ℚ) ∨ 0 < v2 / (n2 : ℚ) := by
    rcases not_and_or.mp hnz with h | h
    · exact Or.inl (div_pos (lt_of_le_of_ne hv1 (Ne.symm h)) hnc)
    · exact Or.inr (div_pos (lt_of_le_of_ne hv2 (Ne.symm h)) hnt)
  have hB := welch_df_bounds (v1 / (n1 : ℚ)) (v2 / (n2 : ℚ)) ((n1 : ℚ) - 1) ((n2 : ℚ) - 1)
    (div_nonneg hv1 hnc.le) (div_nonneg hv2 hnt.le) (by linarith) (by linarith) hab
  unfold wsDF
  rw [cast_min_sub_one]
  exact ⟨hB.1, by linarith [hB.2]⟩

lemma handleErrors_error_taxonomy {x : Except PyExc WResult} {e : PyExc}
    (h : handleErrors x = Except.error e) : e.inTaxonomy = true := by
  cases x with
  | ok v => exact Except.noConfusion h
  | error f =>
    simp only [handleErrors] at h
    split at h
    · injection h with h'
      subst h'
      rename_i hf
      cases f <;> simp_all [PyExc.isInvColOrData, PyExc.inTaxonomy]
    · injection h with h'
      subst h'
      rfl

/-- C1: the specification claims the t statistic follows the test-minus-control
convention and so has the same sign as `mean_difference`.  On the code this is
false: scipy's `ttest_ind(control_vec, test_vec)` computes the numerator as
control minus test.  On the specification's own Scenario 3 data the returned
`mean_difference` is positive while the returned t statistic is negative. -/
theorem C1_counterexample :
    welch_t_test pfun0 dfScenario3 "group" "value" [Cell.str "control", Cell.str "test"] =
      Except.ok (mkResult pfun0 [25/2, 66/5, 59/5, 141/10] [76/5, 74/5, 161/10, 157/10]
        (Cell.str "control") (Cell.str "test")) ∧
    qSign (mkResult pfun0 [25/2, 66/5, 59/5, 141/10] [76/5, 74/5, 161/10, 157/10]
        (Cell.str "control") (Cell.str "test")).mean_difference = 1 ∧
    TVal.sgn (mkResult pfun0 [25/2, 66/5, 59/5, 141/10] [76/5, 74/5, 161/10, 157/10]
        (Cell.str "control") (Cell.str "test")).t_statistic = some (-1) :=
  ⟨rfl,
   by norm_num [mkResult, npMean, qSign],
   by norm_num [mkResult, npMean, npVarDdof1, tFromParts, XFloat.add, XFloat.div, XFloat.mul,
     TVal.sgn, qSign]⟩

/-- C1 (amended): the entry point computes the t statistic with the
control-minus-test numerator, `t = (mean_control - mean_test) / sqrt(s1²/n1 +
s2²/n2)`, so on every successful call the sign of the returned t statistic is
the opposite of the sign of `mean_difference` (and t is NaN only in the
degenerate case where `mean_difference` is zero and both variances vanish). -/
theorem C1_sign_convention (pfun : List ℚ → List ℚ → XFloat) (df : DataFrame)
    (ind dep : String) (ctv : List Cell) (r : WResult)
    (h : welch_t_test pfun df ind dep ctv = Except.ok r) :
    TVal.sgn r.t_statistic = some (-(qSign r.mean_difference)) ∨
      (r.t_statistic = TVal.nan ∧ r.mean_difference = 0) := by
  obtain ⟨cnums, tnums, cv, tv, -, -, hc2, ht2, hr⟩ := welch_ok_inv h
  subst hr
  exact mkResult_t_sgn hc2 ht2

/-- Witness for C1 (amended) at the concrete table `dfWitA`. -/
theorem C1_sign_convention_witness :
    TVal.sgn (mkResult pfun0 [0, 1] [0, 2] (Cell.str "c") (Cell.str "t")).t_statistic =
        some (-(qSign (mkResult pfun0 [0, 1] [0, 2]
          (Cell.str "c") (Cell.str "t")).mean_difference)) ∨
      ((mkResult pfun0 [0, 1] [0, 2] (Cell.str "c") (Cell.str "t")).t_statistic = TVal.nan ∧
        (mkResult pfun0 [0, 1] [0, 2] (Cell.str "c") (Cell.str "t")).mean_difference = 0) :=
  C1_sign_convention pfun0 dfWitA "group" "value" [Cell.str "c", Cell.str "t"]
    (mkResult pfun0 [0, 1] [0, 2] (Cell.str "c") (Cell.str "t")) rfl

/-- C2: on input with both groups constant and equal (control = test = 5,5,5)
the entry point does not raise `StatisticalError`: it returns successfully and
the t statistic field is NaN (scipy's 0/0).  `StatisticalError` is defined in
`exceptions.py` for exactly this situation but is never raised anywhere in the
code, so the claim describes the intended behaviour and the code silently
returns NaN instead. -/
theorem C2_nan_instead_of_statistical_error :
    welch_t_test pfun0 dfConstEqual "group" "value" [Cell.str "c", Cell.str "t"] =
      Except.ok (mkResult pfun0 [5, 5, 5] [5, 5, 5] (Cell.str "c") (Cell.str "t")) ∧
    (mkResult pfun0 [5, 5, 5] [5, 5, 5] (Cell.str "c") (Cell.str "t")).t_statistic =
      TVal.nan :=
  ⟨rfl,
   by norm_num [mkResult, npMean, npVarDdof1, tFromParts, XFloat.add, XFloat.div, XFloat.mul]⟩

/-- C3: whenever validation passes, both groups have rows and survive the NaN
drop, and one group keeps exactly one observation, the entry point fails with
the `InvalidDataError` about the minimum sample size. -/
theorem C3_min_sample_size (pfun : List ℚ → List ℚ → XFloat) (df : DataFrame)
    (ind dep : String) (cv tv : Cell)
    (hval : validate_inputs df ind dep [cv, tv] = Except.ok ())
    (hcd : (groupData df ind dep cv).length ≠ 0)
    (htd : (groupData df ind dep tv).length ≠ 0)
    (hcv : (dropna (groupData df ind dep cv)).length ≠ 0)
    (htv : (dropna (groupData df ind dep tv)).length ≠ 0)
    (h1 : (dropna (groupData df ind dep cv)).length = 1 ∨
          (dropna (groupData df ind dep tv)).length = 1) :
    welch_t_test pfun df ind dep [cv, tv] =
        Except.error (PyExc.invalidData "Control group must have at least 2 observations") ∨
      welch_t_test pfun df ind dep [cv, tv] =
        Except.error (PyExc.invalidData "Test group must have at least 2 observations") := by
  by_cases hc1 : (dropna (groupData df ind dep cv)).length = 1
  · left
    have hex : extract_groups df ind dep [cv, tv] =
        Except.error (PyExc.invalidData "Control group must have at least 2 observations") := by
      simp only [extract_groups]
      rw [if_neg hcd, if_neg htd, if_neg hcv, if_neg htv, if_pos (by omega)]
    unfold welch_t_test
    rw [hval, hex]
    rfl
  · right
    have ht1 : (dropna (groupData df ind dep tv)).length = 1 := by tauto
    have hex : extract_groups df ind dep [cv, tv] =
        Except.error (PyExc.invalidData "Test group must have at least 2 observations") := by
      simp only [extract_groups]
      rw [if_neg hcd, if_neg htd, if_neg hcv, if_neg htv, if_neg (by omega), if_pos (by omega)]
    unfold welch_t_test
    rw [hval, hex]
    rfl

/-- Witness for C3 at a table whose control group keeps one observation. -/
theorem C3_min_sample_size_witness :
    welch_t_test pfun0 dfWitC3 "group" "value" [Cell.str "c", Cell.str "t"] =
        Except.error (PyExc.invalidData "Control group must have at least 2 observations") ∨
      welch_t_test pfun0 dfWitC3 "group" "value" [Cell.str "c", Cell.str "t"] =
        Except.error (PyExc.invalidData "Test group must have at least 2 observations") :=
  C3_min_sample_size pfun0 dfWitC3 "group" "value" (Cell.str "c") (Cell.str "t")
    rfl (by decide) (by decide) (by decide) (by decide) (Or.inl (by decide))

/-- C4: the specification claims the `degrees_of_freedom` field always equals
the Welch–Satterthwaite formula.  When both sample variances are zero the
formula's denominator is zero and the code's IEEE evaluation returns NaN, so
at control = 5,5 and test = 7,7 the call succeeds with a NaN
`degrees_of_freedom` that equals no finite value of the formula. -/
theorem C4_counterexample :
    welch_t_test pfun0 dfConstDiff "group" "value" [Cell.str "c", Cell.str "t"] =
      Except.ok (mkResult pfun0 [5, 5] [7, 7] (Cell.str "c") (Cell.str "t")) ∧
    (mkResult pfun0 [5, 5] [7, 7] (Cell.str "c") (Cell.str "t")).degrees_of_freedom =
      XFloat.nan ∧
    (mkResult pfun0 [5, 5] [7, 7] (Cell.str "c") (Cell.str "t")).degrees_of_freedom ≠
      XFloat.fin (wsDF (varQ [5, 5]) (varQ [7, 7]) 2 2) := by
  have hdf : (mkResult pfun0 [5, 5] [7, 7] (Cell.str "c") (Cell.str "t")).degrees_of_freedom =
      XFloat.nan := by
    norm_num [mkResult, npMean, npVarDdof1, sqrtX, SVal.sq, XFloat.add, XFloat.div,
      XFloat.mul, XFloat.sq]
  refine ⟨rfl, hdf, ?_⟩
  rw [hdf]
  exact fun h => XFloat.noConfusion h

/-- C4 (amended): on every successful call in which not both sample variances
are zero, the `degrees_of_freedom` field equals the Welch–Satterthwaite
formula evaluated with the ddof-1 sample variances (the squares of the
returned standard deviations) and the post-drop group counts. -/
theorem C4_df_formula (pfun : List ℚ → List ℚ → XFloat) (df : DataFrame)
    (ind dep : String) (ctv : List Cell) (r : WResult) (v w : ℚ)
    (h : welch_t_test pfun df ind dep ctv = Except.ok r)
    (hs1 : r.std_control = SVal.sqrtOf v) (hs2 : r.std_test = SVal.sqrtOf w)
    (hnz : ¬(v = 0 ∧ w = 0)) :
    r.degrees_of_freedom = XFloat.fin (wsDF v w r.n_control r.n_test) := by
  obtain ⟨cnums, tnums, cv, tv, -, -, hc2, ht2, hr⟩ := welch_ok_inv h
  subst hr
  rw [mkResult_std_control, sqrtX_var hc2] at hs1
  rw [mkResult_std_test, sqrtX_var ht2] at hs2
  injection hs1 with hv
  injection hs2 with hw
  subst hv
  subst hw
  rw [mkResult_n_control, mkResult_n_test]
  exact mkResult_df_eq hc2 ht2 hnz

/-- Witness for C4 (amended) at the concrete table `dfWitA`. -/
theorem C4_df_formula_witness :
    (mkResult pfun0 [0, 1] [0, 2] (Cell.str "c") (Cell.str "t")).degrees_of_freedom =
      XFloat.fin (wsDF (1/2) 2
        (mkResult pfun0 [0, 1] [0, 2] (Cell.str "c") (Cell.str "t")).n_control
        (mkResult pfun0 [0, 1] [0, 2] (Cell.str "c") (Cell.str "t")).n_test) :=
  C4_df_formula pfun0 dfWitA "group" "value" [Cell.str "c", Cell.str "t"]
    (mkResult pfun0 [0, 1] [0, 2] (Cell.str "c") (Cell.str "t")) (1/2) 2 rfl
    (by norm_num [mkResult, npMean, npVarDdof1, sqrtX])
    (by norm_num [mkResult, npMean, npVarDdof1, sqrtX])
    (by norm_num)

/-- C5: the specification claims every successful call returns a
`degrees_of_freedom` between min(n1, n2) - 1 and n1 + n2 - 2.  When both
sample variances are zero the call still succeeds and the field is NaN, which
satisfies no such bounds. -/
theorem C5_counterexample :
    welch_t_test pfun0 dfConstDiff2 "group" "value" [Cell.str "c", Cell.str "t"] =
      Except.ok (mkResult pfun0 [3, 3] [9, 9] (Cell.str "c") (Cell.str "t")) ∧
    ¬ dfInBounds (mkResult pfun0 [3, 3] [9, 9] (Cell.str "c") (Cell.str "t")) := by
  refine ⟨rfl, ?_⟩
  rintro ⟨q, hq, -⟩
  have hdf : (mkResult pfun0 [3, 3] [9, 9] (Cell.str "c") (Cell.str "t")).degrees_of_freedom =
      XFloat.nan := by
    norm_num [mkResult, npMean, npVarDdof1, sqrtX, SVal.sq, XFloat.add, XFloat.div,
      XFloat.mul, XFloat.sq]
  rw [hdf] at hq
  exact XFloat.noConfusion hq

/-- C5 (amended): on every successful call in which not both sample variances
are zero, the `degrees_of_freedom` field is a finite value q with
min(n_control, n_test) - 1 ≤ q ≤ n_control + n_test - 2. -/
theorem C5_df_bounds (pfun : List ℚ → List ℚ → XFloat) (df : DataFrame)
    (ind dep : String) (ctv : List Cell) (r : WResult) (v w : ℚ)
    (h : welch_t_test pfun df ind dep ctv = Except.ok r)
    (hs1 : r.std_control = SVal.sqrtOf v) (hs2 : r.std_test = SVal.sqrtOf w)
    (hnz : ¬(v = 0 ∧ w = 0)) :
    dfInBounds r := by
  obtain ⟨cnums, tnums, cv, tv, -, -, hc2, ht2, hr⟩ := welch_ok_inv h
  subst hr
  rw [mkResult_std_control, sqrtX_var hc2] at hs1
  rw [mkResult_std_test, sqrtX_var ht2] at hs2
  injection hs1 with hv
  injection hs2 with hw
  subst hv
  subst hw
  have hB := wsDF_bounds (varQ_nonneg hc2) (varQ_nonneg ht2) hc2 ht2 hnz
  refine ⟨wsDF (varQ cnums) (varQ tnums) cnums.length tnums.length,
    mkResult_df_eq hc2 ht2 hnz, ?_, ?_⟩
  · rw [mkResult_n_control, mkResult_n_test, ← Nat.cast_min]
    exact hB.1
  · rw [mkResult_n_control, mkResult_n_test]
    exact hB.2

/-- Witness for C5 (amended) at the concrete table `dfWitA`. -/
theorem C5_df_bounds_witness :
    dfInBounds (mkResult pfun0 [0, 1] [0, 2] (Cell.str "c") (Cell.str "t")) :=
  C5_df_bounds pfun0 dfWitA "group" "value" [Cell.str "c", Cell.str "t"]
    (mkResult pfun0 [0, 1] [0, 2] (Cell.str "c") (Cell.str "t")) (1/2) 2 rfl
    (by norm_num [mkResult, npMean, npVarDdof1, sqrtX])
    (by norm_num [mkResult, npMean, npVarDdof1, sqrtX])
    (by norm_num)

/-- C6: whenever both columns exist and the grouping column has more than two
distinct observed values, the entry point fails with the `InvalidDataError`
whose message carries the distinct count, for every `control_test_values`
argument whatsoever (including wrong lengths): the distinct-count check runs
before the pair-shape check. -/
theorem C6_distinct_values (pfun : List ℚ → List ℚ → XFloat) (df : DataFrame)
    (ind dep : String) (ctv : List Cell)
    (hind : ind ∈ df.columns) (hdep : dep ∈ df.columns) (hnu : 2 < nunique df ind) :
    welch_t_test pfun df ind dep ctv =
      Except.error (PyExc.invalidData ("Independent variable column has " ++
        toString (nunique df ind) ++ " distinct values. Only 2 are allowed for t-test.")) := by
  have hcols : df.columns ≠ [] := List.ne_nil_of_mem hind
  have hrows : df.rows ≠ [] := by
    intro hr
    have hle : nunique df ind ≤ df.rows.length := by
      unfold nunique
      calc (((getColumn df ind).filter (fun x => x != Cell.null)).dedup).length
          ≤ ((getColumn df ind).filter (fun x => x != Cell.null)).length :=
            (List.dedup_sublist _).length_le
        _ ≤ (getColumn df ind).length := (List.filter_sublist _).length_le
        _ = df.rows.length := by unfold getColumn; rw [List.length_map]
    rw [hr] at hle
    simp at hle
    omega
  have hemp : dfEmpty df = false := by
    unfold dfEmpty
    cases hr : df.rows with
    | nil => exact absurd hr hrows
    | cons x xs =>
      cases hco : df.columns with
      | nil => exact absurd hco hcols
      | cons y ys => rfl
  have hval : validate_inputs df ind dep ctv =
      Except.error (PyExc.invalidData ("Independent variable column has " ++
        toString (nunique df ind) ++ " distinct values. Only 2 are allowed for t-test.")) := by
    unfold validate_inputs
    rw [hemp]
    rw [if_neg (by simp), if_neg (not_not.mpr hind), if_neg (not_not.mpr hdep), if_pos hnu]
  unfold welch_t_test
  rw [hval]
  rfl

/-- Witness for C6 at a three-group table, with an empty
`control_test_values`. -/
theorem C6_distinct_values_witness :
    welch_t_test pfun0 df3Groups "group" "value" [] =
      Except.error (PyExc.invalidData ("Independent variable column has " ++
        toString (nunique df3Groups "group") ++
        " distinct values. Only 2 are allowed for t-test.")) :=
  C6_distinct_values pfun0 df3Groups "group" "value" [] (by decide) (by decide) (by decide)

/-- C7: the trailing handler of the exception-raising entry point re-raises
`InvalidColumnError` and `InvalidDataError` (and its subclass) unchanged,
wraps every other exception into the base `WelchTTestError` with the message
"T-test calculation failed: " followed by the original message, and
consequently no exception outside the library taxonomy ever escapes the entry
point. -/
theorem C7_error_wrapping :
    (∀ e : PyExc, e.isInvColOrData = true →
        handleErrors (Except.error e) = Except.error e) ∧
    (∀ e : PyExc, e.isInvColOrData = false →
        handleErrors (Except.error e) =
          Except.error (PyExc.welchTTest ("T-test calculation failed: " ++ e.message))) ∧
    (∀ (pfun : List ℚ → List ℚ → XFloat) (df : DataFrame) (ind dep : String)
        (ctv : List Cell) (e : PyExc),
        welch_t_test pfun df ind dep ctv = Except.error e → e.inTaxonomy = true) := by
  refine ⟨?_, ?_, ?_⟩
  · intro e he
    simp [handleErrors, he]
  · intro e he
    simp [handleErrors, he]
  · intro pfun df ind dep ctv e h
    unfold welch_t_test at h
    exact handleErrors_error_taxonomy h

/-- Witness for C7: a propagated library error and a wrapped foreign error. -/
theorem C7_error_wrapping_witness :
    handleErrors (Except.error (PyExc.invalidData "bad")) =
        Except.error (PyExc.invalidData "bad") ∧
      handleErrors (Except.error (PyExc.pyOther "boom")) =
        Except.error (PyExc.welchTTest ("T-test calculation failed: " ++ "boom")) :=
  ⟨C7_error_wrapping.1 (PyExc.invalidData "bad") rfl,
   C7_error_wrapping.2.1 (PyExc.pyOther "boom") rfl⟩

/-- C8: on every successful call the `mean_difference` field equals
`mean_test - mean_control` exactly, computed from the very same values that
fill the returned `mean_test` and `mean_control` fields. -/
theorem C8_mean_difference_exact (pfun : List ℚ → List ℚ → XFloat) (df : DataFrame)
    (ind dep : String) (ctv : List Cell) (r : WResult)
    (h : welch_t_test pfun df ind dep ctv = Except.ok r) :
    r.mean_difference = r.mean_test - r.mean_control := by
  obtain ⟨cnums, tnums, cv, tv, -, -, -, -, hr⟩ := welch_ok_inv h
  subst hr
  rfl

/-- Witness for C8 at the concrete table `dfWitA`. -/
theorem C8_mean_difference_exact_witness :
    (mkResult pfun0 [0, 1] [0, 2] (Cell.str "c") (Cell.str "t")).mean_difference =
      (mkResult pfun0 [0, 1] [0, 2] (Cell.str "c") (Cell.str "t")).mean_test -
        (mkResult pfun0 [0, 1] [0, 2] (Cell.str "c") (Cell.str "t")).mean_control :=
  C8_mean_difference_exact pfun0 dfWitA "group" "value" [Cell.str "c", Cell.str "t"]
    (mkResult pfun0 [0, 1] [0, 2] (Cell.str "c") (Cell.str "t")) rfl

/-- C9: the entry point is a pure function of its arguments: two calls with
equal tables, column names and group-value pairs return equal results — the
same result mapping on success and the same failure on failure. -/
theorem C9_deterministic (pfun : List ℚ → List ℚ → XFloat) (dfa dfb : DataFrame)
    (ia ib da db : String) (va vb : List Cell)
    (h1 : dfa = dfb) (h2 : ia = ib) (h3 : da = db) (h4 : va = vb) :
    welch_t_test pfun dfa ia da va = welch_t_test pfun dfb ib db vb := by
  subst h1
  subst h2
  subst h3
  subst h4
  rfl

/-- Witness for C9 at the concrete table `dfWitA`. -/
theorem C9_deterministic_witness :
    welch_t_test pfun0 dfWitA "group" "value" [Cell.str "c", Cell.str "t"] =
      welch_t_test pfun0 dfWitA "group" "value" [Cell.str "c", Cell.str "t"] :=
  C9_deterministic pfun0 dfWitA dfWitA "group" "group" "value" "value"
    [Cell.str "c", Cell.str "t"] [Cell.str "c", Cell.str "t"] rfl rfl rfl rfl

/-- C10: the permissive variant in `src/welch_t_test.py` never raises: on
every input it returns a mapping, either the fully-populated result mapping or
the single-key error mapping. -/
theorem C10_always_returns_mapping (pfun : List ℚ → List ℚ → XFloat) (df : DataFrame)
    (ind dep : String) (ctv : List Cell) :
    (∃ r, welch_t_test_permissive pfun df ind dep ctv = PermOut.ok r) ∨
      (∃ m, welch_t_test_permissive pfun df ind dep ctv = PermOut.err m) := by
  cases h : welch_t_test_permissive pfun df ind dep ctv with
  | ok r => exact Or.inl ⟨r, rfl⟩
  | err m => exact Or.inr ⟨m, rfl⟩
